import Mathlib

/-!
Verification of the LLProxy admission/rate-limiting core against its Go
source (cmd/llproxy).  The scheduler state and its operations are embedded
shallowly: Go float64 arithmetic is modelled by exact rationals (ℚ), wall
clock time by a ℚ number of seconds threaded through the functions, and the
scheduler's potentially unbounded wait loop by a fuel parameter (`none`
means the loop was still running when the fuel ran out).
-/

namespace LLProxy

/-- Response (scheduler.go): the verdict a scheduler delivers on a
reservation's response channel: Ready, RateLimit or RequestTooLarge. -/
inductive Response where
  | Ready
  | RateLimit
  | RequestTooLarge
deriving DecidableEq, Repr

/-- ModelConfig (config.go): per-model scheduler configuration.
Go float64 fields are modelled as ℚ. -/
structure ModelConfig where
  MaxQueueSize : Nat
  MaxQueueWait : ℚ
  ReqsPerMinute : ℚ
  TokensPerMinute : ℚ
  CharsPerMinute : ℚ
deriving DecidableEq, Repr

/-- The mutable capacity fields of Scheduler (scheduler.go): LastReqTime,
RequestCapacity and TokenCapacity.  The immutable Config is passed to each
operation separately; the Requests channel and log/bookkeeping fields are
modelled by the step functions below.  Times are in seconds. -/
structure SchedulerState where
  LastReqTime : ℚ
  RequestCapacity : ℚ
  TokenCapacity : ℚ
deriving DecidableEq, Repr

/-- Scheduler.updateCapacity (scheduler.go lines 127-141): lazily replenish
both capacities in proportion to the time elapsed since LastReqTime,
clamped from above by the per-minute ceilings, and stamp LastReqTime. -/
def updateCapacity (cfg : ModelConfig) (s : SchedulerState) (now : ℚ) : SchedulerState :=
  if s.TokenCapacity < cfg.TokensPerMinute ∨ s.RequestCapacity < cfg.ReqsPerMinute then
    let elapsed := (now - s.LastReqTime) / 60
    { LastReqTime := now
      RequestCapacity := min (s.RequestCapacity + elapsed * cfg.ReqsPerMinute) cfg.ReqsPerMinute
      TokenCapacity := min (s.TokenCapacity + elapsed * cfg.TokensPerMinute) cfg.TokensPerMinute }
  else
    { s with LastReqTime := now }

/-- The epsilon of Scheduler.waitForCapacity (scheduler.go line 144). -/
def epsilon : ℚ := 1 / 10

/-- The capacity gap computed in Scheduler.waitForCapacity (scheduler.go
lines 151-153): max of the time (in minutes) until a free request slot and
the time until sufficient tokens. -/
def capacityTime (cfg : ModelConfig) (required : ℚ) (s : SchedulerState) : ℚ :=
  max (max 0 ((1 - s.RequestCapacity) / cfg.ReqsPerMinute))
      (max 0 ((required - s.TokenCapacity) / cfg.TokensPerMinute))

/-- The sleep duration of Scheduler.waitForCapacity (scheduler.go line 161):
`time.Duration(math.Min(2.0, capacityTime+epsilon) * float64(time.Second))`,
i.e. min(2, capacityTime + epsilon) seconds, where capacityTime is the
number produced by `capacityTime` (a quantity in minutes). -/
def sleepSeconds (ct : ℚ) : ℚ :=
  min 2 (ct + epsilon)

/-- Scheduler.waitForCapacity (scheduler.go lines 143-164): repeatedly
replenish, test the capacity gap, and sleep until the gap closes.  The fuel
bounds the number of loop iterations; `some (s, t)` is the state and the
time at which the loop returned. -/
def waitForCapacity (cfg : ModelConfig) (required : ℚ) :
    Nat → SchedulerState → ℚ → Option (SchedulerState × ℚ)
  | 0, _, _ => none
  | fuel + 1, s, now =>
      let s1 := updateCapacity cfg s now
      let ct := capacityTime cfg required s1
      if ct ≤ 0 then some (s1, now)
      else waitForCapacity cfg required fuel s1 (now + sleepSeconds ct)

/-- One handling cycle of Scheduler.run (scheduler.go lines 107-124) for a
dequeued reservation of `required` tokens: requests larger than the token
ceiling are answered RequestTooLarge at once with the state untouched;
otherwise the scheduler waits for capacity, debits it and answers Ready.
`some (s, v, t)` is the state after the cycle, the verdict sent on the
response channel, and the time at which it was sent. -/
def runStep (cfg : ModelConfig) (required : ℚ) (fuel : Nat) (s : SchedulerState) (now : ℚ) :
    Option (SchedulerState × Response × ℚ) :=
  if cfg.TokensPerMinute < required then
    some (s, Response.RequestTooLarge, now)
  else
    match waitForCapacity cfg required fuel s now with
    | none => none
    | some (s1, t) =>
        some ({ s1 with
                  TokenCapacity := s1.TokenCapacity - required
                  RequestCapacity := s1.RequestCapacity - 1 },
              Response.Ready, t)

/-- The invariant of the spec's data model for a scheduler's capacities:
both stay between 0 and their per-minute ceilings. -/
def Inv (cfg : ModelConfig) (s : SchedulerState) : Prop :=
  0 ≤ s.RequestCapacity ∧ s.RequestCapacity ≤ cfg.ReqsPerMinute ∧
  0 ≤ s.TokenCapacity ∧ s.TokenCapacity ≤ cfg.TokensPerMinute

instance (cfg : ModelConfig) (s : SchedulerState) : Decidable (Inv cfg s) := by
  unfold Inv; infer_instance

theorem capacityTime_nonneg (cfg : ModelConfig) (required : ℚ) (s : SchedulerState) :
    0 ≤ capacityTime cfg required s :=
  le_trans (le_max_left 0 _) (le_max_left _ _)

theorem sleepSeconds_nonneg {ct : ℚ} (h : 0 ≤ ct) : 0 ≤ sleepSeconds ct := by
  unfold sleepSeconds epsilon
  exact le_min (by norm_num) (by linarith)

theorem updateCapacity_LastReqTime (cfg : ModelConfig) (s : SchedulerState) (now : ℚ) :
    (updateCapacity cfg s now).LastReqTime = now := by
  unfold updateCapacity; split <;> rfl

/-- A capacity gap of at most zero means both admission conditions hold:
at least one request slot and at least `required` tokens. -/
theorem capacityTime_le_zero {cfg : ModelConfig} {required : ℚ} {s : SchedulerState}
    (hr : 0 < cfg.ReqsPerMinute) (ht : 0 < cfg.TokensPerMinute)
    (h : capacityTime cfg required s ≤ 0) :
    1 ≤ s.RequestCapacity ∧ required ≤ s.TokenCapacity := by
  unfold capacityTime at h
  have ha : (1 - s.RequestCapacity) / cfg.ReqsPerMinute ≤ 0 :=
    le_trans (le_trans (le_max_right _ _) (le_max_left _ _)) h
  have hb : (required - s.TokenCapacity) / cfg.TokensPerMinute ≤ 0 :=
    le_trans (le_trans (le_max_right _ _) (le_max_right _ _)) h
  constructor
  · rcases div_nonpos_iff.mp ha with ⟨hx, hc⟩ | ⟨hx, hc⟩ <;> linarith
  · rcases div_nonpos_iff.mp hb with ⟨hx, hc⟩ | ⟨hx, hc⟩ <;> linarith

/-- When the wait loop returns, the state it returns satisfies both
admission conditions. -/
theorem waitForCapacity_capacity {cfg : ModelConfig} {required : ℚ}
    (hr : 0 < cfg.ReqsPerMinute) (ht : 0 < cfg.TokensPerMinute) :
    ∀ (fuel : Nat) (s : SchedulerState) (now : ℚ) (s1 : SchedulerState) (t : ℚ),
      waitForCapacity cfg required fuel s now = some (s1, t) →
      1 ≤ s1.RequestCapacity ∧ required ≤ s1.TokenCapacity := by
  intro fuel
  induction fuel with
  | zero => intro s now s1 t h; simp [waitForCapacity] at h
  | succ fuel ih =>
    intro s now s1 t h
    simp only [waitForCapacity] at h
    by_cases hct : capacityTime cfg required (updateCapacity cfg s now) ≤ 0
    · rw [if_pos hct] at h
      simp only [Option.some.injEq, Prod.mk.injEq] at h
      obtain ⟨h1, -⟩ := h
      exact h1 ▸ capacityTime_le_zero hr ht hct
    · rw [if_neg hct] at h
      exact ih _ _ _ _ h

/-- Lazy replenishment keeps the capacity invariant: the top-ups are
nonnegative (the clock does not go backwards) and clamped by min at the
per-minute ceilings. -/
theorem updateCapacity_inv {cfg : ModelConfig} {s : SchedulerState} {now : ℚ}
    (hr : 0 < cfg.ReqsPerMinute) (ht : 0 < cfg.TokensPerMinute)
    (hnow : s.LastReqTime ≤ now) (hInv : Inv cfg s) :
    Inv cfg (updateCapacity cfg s now) := by
  obtain ⟨h1, h2, h3, h4⟩ := hInv
  have he : 0 ≤ (now - s.LastReqTime) / 60 := div_nonneg (by linarith) (by norm_num)
  unfold updateCapacity Inv
  split
  · refine ⟨?_, ?_, ?_, ?_⟩
    · exact le_min (add_nonneg h1 (mul_nonneg he hr.le)) hr.le
    · exact min_le_right _ _
    · exact le_min (add_nonneg h3 (mul_nonneg he ht.le)) ht.le
    · exact min_le_right _ _
  · exact ⟨h1, h2, h3, h4⟩

/-- The wait loop keeps the capacity invariant. -/
theorem waitForCapacity_inv {cfg : ModelConfig} {required : ℚ}
    (hr : 0 < cfg.ReqsPerMinute) (ht : 0 < cfg.TokensPerMinute) :
    ∀ (fuel : Nat) (s : SchedulerState) (now : ℚ) (s1 : SchedulerState) (t : ℚ),
      Inv cfg s → s.LastReqTime ≤ now →
      waitForCapacity cfg required fuel s now = some (s1, t) → Inv cfg s1 := by
  intro fuel
  induction fuel with
  | zero => intro s now s1 t _ _ h; simp [waitForCapacity] at h
  | succ fuel ih =>
    intro s now s1 t hInv hnow h
    simp only [waitForCapacity] at h
    have hInv1 : Inv cfg (updateCapacity cfg s now) := updateCapacity_inv hr ht hnow hInv
    by_cases hct : capacityTime cfg required (updateCapacity cfg s now) ≤ 0
    · rw [if_pos hct] at h
      simp only [Option.some.injEq, Prod.mk.injEq] at h
      exact h.1 ▸ hInv1
    · rw [if_neg hct] at h
      refine ih _ _ _ _ hInv1 ?_ h
      rw [updateCapacity_LastReqTime]
      have := sleepSeconds_nonneg (capacityTime_nonneg cfg required (updateCapacity cfg s now))
      linarith

/-- A scheduler configuration used for concrete witness instances:
rpm = tpm = 2, a one-second queue wait, ten queue slots. -/
def cfgW : ModelConfig := ⟨10, 1, 2, 2, 0⟩

/-- A scheduler state at full capacity for cfgW. -/
def sW : SchedulerState := ⟨0, 2, 2⟩

/-- C3: a Ready verdict is sent exactly when, after lazy replenishment, the
state reached by the wait loop has at least one request slot and at least
`required` tokens; in the same handling step the scheduler debits exactly 1
request and exactly `required` tokens, leaving LastReqTime untouched, and
the verdict sent with that debit is Ready. -/
theorem ready_requires_and_debits_capacity (cfg : ModelConfig) (required : ℚ) (fuel : Nat)
    (s : SchedulerState) (now : ℚ) (s2 : SchedulerState) (t : ℚ)
    (hr : 0 < cfg.ReqsPerMinute) (ht : 0 < cfg.TokensPerMinute)
    (h : runStep cfg required fuel s now = some (s2, Response.Ready, t)) :
    ∃ s1, waitForCapacity cfg required fuel s now = some (s1, t) ∧
      1 ≤ s1.RequestCapacity ∧ required ≤ s1.TokenCapacity ∧
      s2.RequestCapacity = s1.RequestCapacity - 1 ∧
      s2.TokenCapacity = s1.TokenCapacity - required ∧
      s2.LastReqTime = s1.LastReqTime := by
  unfold runStep at h
  by_cases hbig : cfg.TokensPerMinute < required
  · rw [if_pos hbig] at h
    simp at h
  · rw [if_neg hbig] at h
    rcases hw : waitForCapacity cfg required fuel s now with - | ⟨s1, t1⟩
    · rw [hw] at h; simp at h
    · rw [hw] at h
      simp only [Option.some.injEq, Prod.mk.injEq, true_and] at h
      obtain ⟨hs2, ht1⟩ := h
      rw [ht1] at hw
      obtain ⟨hc1, hc2⟩ := waitForCapacity_capacity hr ht fuel s now s1 t hw
      exact ⟨s1, by rw [ht1], hc1, hc2, by rw [← hs2], by rw [← hs2], by rw [← hs2]⟩

/-- Witness for C3 at a concrete input: with cfgW at full capacity a
reservation of 1 token is admitted immediately and the debits are exact. -/
theorem ready_requires_and_debits_capacity_witness :
    ∃ s1, waitForCapacity cfgW 1 1 sW 0 = some (s1, 0) ∧
      1 ≤ s1.RequestCapacity ∧ (1 : ℚ) ≤ s1.TokenCapacity ∧
      (⟨0, 1, 1⟩ : SchedulerState).RequestCapacity = s1.RequestCapacity - 1 ∧
      (⟨0, 1, 1⟩ : SchedulerState).TokenCapacity = s1.TokenCapacity - 1 ∧
      (⟨0, 1, 1⟩ : SchedulerState).LastReqTime = s1.LastReqTime :=
  ready_requires_and_debits_capacity cfgW 1 1 sW 0 ⟨0, 1, 1⟩ 0
    (by norm_num [cfgW]) (by norm_num [cfgW])
    (by norm_num [runStep, waitForCapacity, updateCapacity, capacityTime, cfgW, sW])

/-- C5: after the lazy replenishment of updateCapacity, and after a handling
step of the admission loop (replenishments plus the admission debit), both
capacities stay within 0 and their per-minute ceilings. -/
theorem capacity_bounds (cfg : ModelConfig) (s : SchedulerState) (now required : ℚ)
    (fuel : Nat) (s2 : SchedulerState) (v : Response) (t : ℚ)
    (hr : 0 < cfg.ReqsPerMinute) (ht : 0 < cfg.TokensPerMinute)
    (hreq : 0 ≤ required) (hnow : s.LastReqTime ≤ now) (hInv : Inv cfg s)
    (hrun : runStep cfg required fuel s now = some (s2, v, t)) :
    Inv cfg (updateCapacity cfg s now) ∧ Inv cfg s2 := by
  have hup : Inv cfg (updateCapacity cfg s now) := updateCapacity_inv hr ht hnow hInv
  refine ⟨hup, ?_⟩
  unfold runStep at hrun
  by_cases hbig : cfg.TokensPerMinute < required
  · rw [if_pos hbig] at hrun
    simp only [Option.some.injEq, Prod.mk.injEq] at hrun
    exact hrun.1 ▸ hInv
  · rw [if_neg hbig] at hrun
    rcases hw : waitForCapacity cfg required fuel s now with - | ⟨s1, t1⟩
    · rw [hw] at hrun; simp at hrun
    · rw [hw] at hrun
      simp only [Option.some.injEq, Prod.mk.injEq] at hrun
      obtain ⟨hs2, -, -⟩ := hrun
      obtain ⟨hc1, hc2⟩ := waitForCapacity_capacity hr ht fuel s now s1 t1 hw
      obtain ⟨h1, h2, h3, h4⟩ := waitForCapacity_inv hr ht fuel s now s1 t1 hInv hnow hw
      rw [← hs2]
      exact ⟨by simp; linarith, by simp; linarith, by simp; linarith, by simp; linarith⟩

/-- Witness for C5 at a concrete input: starting from full capacity under
cfgW, both the replenished state and the post-admission state satisfy the
bounds. -/
theorem capacity_bounds_witness :
    Inv cfgW (updateCapacity cfgW sW 0) ∧ Inv cfgW ⟨0, 1, 1⟩ :=
  capacity_bounds cfgW sW 0 1 1 ⟨0, 1, 1⟩ Response.Ready 0
    (by norm_num [cfgW]) (by norm_num [cfgW]) (by norm_num)
    (by norm_num [sW]) (by norm_num [Inv, cfgW, sW])
    (by norm_num [runStep, waitForCapacity, updateCapacity, capacityTime, cfgW, sW])

/-- C10: a reservation whose required tokens exceed the per-minute token
ceiling is answered RequestTooLarge immediately, at the dequeue time, with
the scheduler state returned exactly as it was: LastReqTime,
RequestCapacity and TokenCapacity unchanged and nothing debited. -/
theorem too_large_leaves_state_unchanged (cfg : ModelConfig) (required : ℚ)
    (fuel : Nat) (s : SchedulerState) (now : ℚ)
    (h : cfg.TokensPerMinute < required) :
    runStep cfg required fuel s now = some (s, Response.RequestTooLarge, now) := by
  unfold runStep
  rw [if_pos h]

/-- Witness for C10 at a concrete input: 3 tokens against a ceiling of 2. -/
theorem too_large_leaves_state_unchanged_witness :
    runStep cfgW 3 1 sW 0 = some (sW, Response.RequestTooLarge, 0) :=
  too_large_leaves_state_unchanged cfgW 3 1 sW 0 (by norm_num [cfgW])

/-- The configuration of the C1 failing input: rpm = tpm = 120 and a
maxQueueWait of 0.1 seconds (which scheduler.go never reads). -/
def cfgC1 : ModelConfig := ⟨10, 1 / 10, 120, 120, 0⟩

/-- The scheduler state of the C1 failing input at submission time 0: no
request capacity left, full token capacity. -/
def sC1 : SchedulerState := ⟨0, 0, 120⟩

/-- C1: evaluation of the admission loop at the failing input.  A
reservation of 1 token submitted at time 0 under cfgC1 is answered Ready at
a time strictly past the deadline submitted_at + MaxQueueWait = 0.1 s: the
code enforces no deadline (ModelConfig.MaxQueueWait is parsed but never
read by the scheduler) and the admission loop sends only Ready or
RequestTooLarge, never RateLimit. -/
theorem run_admits_past_deadline_without_ratelimit :
    ((runStep cfgC1 1 20 sC1 0).map fun r => r.2.1) = some Response.Ready ∧
    ((runStep cfgC1 1 20 sC1 0).map fun r => decide (0 + cfgC1.MaxQueueWait < r.2.2)) =
      some true := by
  norm_num [runStep, waitForCapacity, updateCapacity, capacityTime, sleepSeconds,
    epsilon, cfgC1, sC1]

/-- The configuration of the C6 counterexample: rpm = 2, tpm = 100. -/
def cfg6 : ModelConfig := ⟨1, 1, 2, 100, 0⟩

/-- The scheduler state of the C6 counterexample: 0.8 request slots left,
full token capacity, so the capacity gap is 0.1 minutes. -/
def s6 : SchedulerState := ⟨0, 4 / 5, 100⟩

/-- C6 (amended): when the capacity gap `need` computed after replenishment
is positive, the wait loop re-evaluates after sleeping exactly
sleepSeconds need = min(2, need + ε) seconds — the code reuses the gap,
a quantity in minutes, as a number of seconds without the ×60 conversion. -/
theorem wait_loop_sleeps_gap_plus_epsilon (cfg : ModelConfig) (required : ℚ) (fuel : Nat)
    (s : SchedulerState) (now : ℚ)
    (h : 0 < capacityTime cfg required (updateCapacity cfg s now)) :
    waitForCapacity cfg required (fuel + 1) s now =
      waitForCapacity cfg required fuel (updateCapacity cfg s now)
        (now + sleepSeconds (capacityTime cfg required (updateCapacity cfg s now))) := by
  simp only [waitForCapacity]
  rw [if_neg (not_le.mpr h)]

/-- Witness for the amended C6 at a concrete input: under cfg6 and s6 the
gap is positive and the loop takes one sleep step. -/
theorem wait_loop_sleeps_gap_plus_epsilon_witness :
    waitForCapacity cfg6 1 (1 + 1) s6 0 =
      waitForCapacity cfg6 1 1 (updateCapacity cfg6 s6 0)
        (0 + sleepSeconds (capacityTime cfg6 1 (updateCapacity cfg6 s6 0))) :=
  wait_loop_sleeps_gap_plus_epsilon cfg6 1 1 s6 0
    (by norm_num [capacityTime, updateCapacity, cfg6, s6])

/-- Counterexample to C6 as stated: with a positive gap of 0.1 minutes the
code sleeps min(2, 0.1 + 0.1) = 0.2 seconds, while the claimed formula
min(2 s, need×60 s + ε) gives 2 seconds. -/
theorem sleep_duration_not_need_times_sixty :
    0 < capacityTime cfg6 1 (updateCapacity cfg6 s6 0) ∧
    sleepSeconds (capacityTime cfg6 1 (updateCapacity cfg6 s6 0)) = 1 / 5 ∧
    min 2 (capacityTime cfg6 1 (updateCapacity cfg6 s6 0) * 60 + epsilon) = 2 ∧
    (1 / 5 : ℚ) ≠ 2 := by
  norm_num [capacityTime, updateCapacity, sleepSeconds, epsilon, cfg6, s6]

/-! ## Provider dispatcher (OpenAIProvider.GetHandler and ParseRequest) -/

/-- Go strings.Contains s pat: pat occurs as a contiguous substring of s. -/
def strContains (s pat : String) : Bool :=
  s.data.tails.any fun t => pat.data.isPrefixOf t

/-- Go strings.HasSuffix s pat: s ends with pat. -/
def strHasSuffix (s pat : String) : Bool :=
  pat.data.isSuffixOf s.data

/-- The request kinds ParseRequest distinguishes when it parses a body. -/
inductive BodyKind where
  | audio
  | chat
  | completion
  | embedding
  | edits
deriving DecidableEq, Repr

/-- The routing decision of OpenAIProvider.ParseRequest: bypass the
scheduler (model ""), the images special case (model "DALL-E 2" with a nil
request), or parse the body of the given kind. -/
inductive ParseRoute where
  | bypass
  | images
  | body (kind : BodyKind)
deriving DecidableEq, Repr

/-- The path/method dispatch of OpenAIProvider.ParseRequest, in source
order: only POST is ever rate limited; files, fine-tunes and moderations
bypass; images are assigned the implied model "DALL-E 2"; the remaining
endpoints parse their body; anything else bypasses. -/
def parseRoute (method path : String) : ParseRoute :=
  if method ≠ "POST" then ParseRoute.bypass
  else if strContains path "/v1/files" then ParseRoute.bypass
  else if strContains path "/v1/fine-tunes" then ParseRoute.bypass
  else if strContains path "/v1/moderations" then ParseRoute.bypass
  else if strContains path "/v1/images" then ParseRoute.images
  else if strContains path "/v1/audio" then ParseRoute.body BodyKind.audio
  else if strHasSuffix path "/v1/chat/completions" then ParseRoute.body BodyKind.chat
  else if strHasSuffix path "/v1/completions" then ParseRoute.body BodyKind.completion
  else if strHasSuffix path "/v1/embeddings" then ParseRoute.body BodyKind.embedding
  else if strHasSuffix path "/v1/edits" then ParseRoute.body BodyKind.edits
  else ParseRoute.bypass

deriving instance DecidableEq for Except

/-- The `request` interface value the dispatcher received from
ParseRequest, reduced to what GetHandler observes of it: either the Go nil
interface (images, and the bypass cases where it is never touched), or a
request whose TokensForRequest call yields the given result. -/
inductive ReqVal where
  | nilReq
  | req (tokens : Except String Int)
deriving DecidableEq, Repr

/-- ParseRequest's result for a given route, with JSON body decoding
abstracted as `body`: bypass returns model "" and a nil request, images
return the implied model "DALL-E 2" and a nil request, the body kinds
return whatever the body decodes to. -/
def parseResult (route : ParseRoute) (body : BodyKind → Except String (String × ReqVal)) :
    Except String (String × ReqVal) :=
  match route with
  | ParseRoute.bypass => Except.ok ("", ReqVal.nilReq)
  | ParseRoute.images => Except.ok ("DALL-E 2", ReqVal.nilReq)
  | ParseRoute.body k => body k

/-- What the dispatcher closure of OpenAIProvider.GetHandler does with one
request, observably: the first error status it writes with http.Error (if
any), whether it forwards the request upstream, whether it hits the Go nil
interface method call (a panic), and whether it is blocked on the channel
send into a full arrivals buffer. -/
structure HOutcome where
  status : Option Nat
  forwarded : Bool
  panicked : Bool
  blocked : Bool
deriving DecidableEq, Repr

/-- OpenAIProvider.GetHandler (src/unnamed/part_001 lines 69-139), as a
function of the ParseRequest result, the scheduler map, the occupancy of
the chosen scheduler's arrivals channel, and the verdict that scheduler
delivers.  A parse error is a 400; model "" skips the scheduler and
forwards; an unknown model is a 400; a TokensForRequest error is a 400; the
pre-check rejects with 400 when rpm < 1 or tpm < tokens; a send into a full
buffered channel blocks (Go channel send semantics, with the channel made
with capacity MaxQueueSize in initSchedulers); then the verdict: RateLimit
is a 429 and returns, RequestTooLarge writes a 400 but — the branch has no
return statement — still falls through to forwarding, Ready forwards. -/
def getHandlerModel (S : String → Option ModelConfig)
    (parse : Except String (String × ReqVal)) (queueLen : Nat) (verdict : Response) :
    HOutcome :=
  match parse with
  | Except.error _ => ⟨some 400, false, false, false⟩
  | Except.ok (model, reqv) =>
    if model = "" then ⟨none, true, false, false⟩
    else
      match S model with
      | none => ⟨some 400, false, false, false⟩
      | some cfg =>
        match reqv with
        | ReqVal.nilReq => ⟨none, false, true, false⟩
        | ReqVal.req tokres =>
          match tokres with
          | Except.error _ => ⟨some 400, false, false, false⟩
          | Except.ok tokens =>
            if cfg.ReqsPerMinute < 1 ∨ cfg.TokensPerMinute < (tokens : ℚ) then
              ⟨some 400, false, false, false⟩
            else if cfg.MaxQueueSize ≤ queueLen then ⟨none, false, false, true⟩
            else
              match verdict with
              | Response.RateLimit => ⟨some 429, false, false, false⟩
              | Response.RequestTooLarge => ⟨some 400, true, false, false⟩
              | Response.Ready => ⟨none, true, false, false⟩

/-- Go's send on a buffered channel of capacity `cap` (the arrivals channel
made in initSchedulers, scheduler.go line 62): if the buffer has room the
element is appended and the send completes; otherwise the sender blocks
(`none`: no synchronous completion and no failure). -/
def chanSend {α : Type} (cap : Nat) (buf : List α) (x : α) : Option (List α) :=
  if buf.length < cap then some (buf ++ [x]) else none

/-- A concrete scheduler map holding only the test model gpt-3.5-turbo,
with the openai_test.go configuration except MaxQueueSize = 1. -/
def cfg2c : ModelConfig := ⟨1, 1, 60, 60000, 0⟩

/-- The scheduler map of the concrete dispatcher instances. -/
def S2c : String → Option ModelConfig :=
  fun m => if m = "gpt-3.5-turbo" then some cfg2c else none

/-- A ParseRequest result for a well-formed chat completion of 10 tokens. -/
def parse2 : Except String (String × ReqVal) :=
  Except.ok ("gpt-3.5-turbo", ReqVal.req (Except.ok 10))

/-- A body decoder that is never consulted (the images route ignores it). -/
def bodyNone : BodyKind → Except String (String × ReqVal) :=
  fun _ => Except.error "unused"

/-- C2 (amended): a submission that reaches the channel send while the
arrivals buffer already holds MaxQueueSize reservations blocks the
dispatcher — it writes no response and no synchronous failure occurs — and
the Go channel send into the full buffer does not complete synchronously. -/
theorem submit_blocks_when_queue_full (S : String → Option ModelConfig)
    (model : String) (tokens : Int) (cfg : ModelConfig) (queueLen : Nat)
    (verdict : Response) (buf : List Nat)
    (hm : model ≠ "") (hS : S model = some cfg)
    (hpre : ¬(cfg.ReqsPerMinute < 1 ∨ cfg.TokensPerMinute < (tokens : ℚ)))
    (hfull : cfg.MaxQueueSize ≤ queueLen) (hbuf : buf.length = queueLen) :
    getHandlerModel S (Except.ok (model, ReqVal.req (Except.ok tokens))) queueLen verdict =
      ⟨none, false, false, true⟩ ∧
    chanSend cfg.MaxQueueSize buf 0 = none := by
  constructor
  · simp only [getHandlerModel, hS]
    rw [if_neg hm, if_neg hpre, if_pos hfull]
  · unfold chanSend
    rw [if_neg (by omega)]

/-- Witness for the amended C2 at a concrete input: one reservation already
buffered against MaxQueueSize = 1. -/
theorem submit_blocks_when_queue_full_witness :
    getHandlerModel S2c (Except.ok ("gpt-3.5-turbo", ReqVal.req (Except.ok 10))) 1
        Response.Ready = ⟨none, false, false, true⟩ ∧
    chanSend cfg2c.MaxQueueSize [0] 0 = none :=
  submit_blocks_when_queue_full S2c "gpt-3.5-turbo" 10 cfg2c 1 Response.Ready [0]
    (by simp) (by simp [S2c]) (by norm_num [cfg2c]) (by norm_num [cfg2c]) rfl

/-- Counterexample to C2 as stated: at the concrete full-buffer input the
dispatcher is blocked on the send and writes nothing — it neither fails
synchronously nor returns 429. -/
theorem queue_full_offer_does_not_fail_cex :
    getHandlerModel S2c parse2 1 Response.Ready = ⟨none, false, false, true⟩ ∧
    ¬((getHandlerModel S2c parse2 1 Response.Ready).status = some 429 ∧
      (getHandlerModel S2c parse2 1 Response.Ready).blocked = false) := by
  have h : getHandlerModel S2c parse2 1 Response.Ready = ⟨none, false, false, true⟩ := by
    simp [parse2, getHandlerModel, S2c, cfg2c]
    norm_num
  exact ⟨h, by rw [h]; simp⟩

/-- C4: evaluation of the dispatcher's verdict handling at a scheduled
chat-completion request.  Ready forwards with no error written; RateLimit
writes 429 and does not forward; RequestTooLarge writes 400 but — the
branch in GetHandler lacks a return statement — the request is still
forwarded upstream, contradicting the claim. -/
theorem verdict_handling_eval :
    getHandlerModel S2c parse2 0 Response.Ready = ⟨none, true, false, false⟩ ∧
    getHandlerModel S2c parse2 0 Response.RateLimit = ⟨some 429, false, false, false⟩ ∧
    getHandlerModel S2c parse2 0 Response.RequestTooLarge = ⟨some 400, true, false, false⟩ := by
  refine ⟨?_, ?_, ?_⟩ <;> (simp [parse2, getHandlerModel, S2c, cfg2c]; norm_num)

/-- C8 (amended): a request ParseRequest routes as images carries the
implied model "DALL-E 2", so GetHandler does perform a scheduler lookup for
"DALL-E 2"; when no scheduler of that name is configured the dispatcher
responds 400 and does not forward the request upstream. -/
theorem images_route_goes_through_scheduler_lookup (method path : String)
    (S : String → Option ModelConfig)
    (body : BodyKind → Except String (String × ReqVal)) (queueLen : Nat) (verdict : Response)
    (himg : parseRoute method path = ParseRoute.images)
    (hS : S "DALL-E 2" = none) :
    getHandlerModel S (parseResult (parseRoute method path) body) queueLen verdict =
      ⟨some 400, false, false, false⟩ := by
  rw [himg]
  simp [parseResult, getHandlerModel, hS]

/-- Witness for the amended C8 at a concrete input: a POST to
/openai/v1/images/generations against a scheduler map with no "DALL-E 2". -/
theorem images_route_goes_through_scheduler_lookup_witness :
    getHandlerModel S2c (parseResult (parseRoute "POST" "/openai/v1/images/generations")
        bodyNone) 0 Response.Ready = ⟨some 400, false, false, false⟩ :=
  images_route_goes_through_scheduler_lookup "POST" "/openai/v1/images/generations"
    S2c bodyNone 0 Response.Ready (by decide) (by simp [S2c])

/-- Counterexample to C8 as stated: the POST images request is routed as
model "DALL-E 2", and with no such scheduler configured the dispatcher
answers 400 without forwarding — there is a scheduler lookup and the
request is not forwarded upstream. -/
theorem images_request_rejected_not_forwarded_cex :
    parseRoute "POST" "/openai/v1/images/generations" = ParseRoute.images ∧
    getHandlerModel S2c (parseResult ParseRoute.images bodyNone) 0 Response.Ready =
      ⟨some 400, false, false, false⟩ ∧
    (getHandlerModel S2c (parseResult ParseRoute.images bodyNone) 0 Response.Ready).forwarded
      = false := by
  refine ⟨by decide, ?_, ?_⟩ <;> simp [parseResult, getHandlerModel, S2c]

/-! ## Token estimator (ChatCompletionRequest.TokensForRequest) -/

/-- The assumed most recent gpt-3.5 model (src/unnamed/part_001 line 33). -/
def GPT_3_5_DEFAULT : String := "gpt-3.5-turbo-0613"

/-- The assumed most recent gpt-4 model (src/unnamed/part_001 line 34). -/
def GPT_4_DEFAULT : String := "gpt-4-0613"

/-- One chat message as the estimator reads it: role, content and name. -/
structure ChatCompletionMessage where
  Role : String
  Content : String
  Name : String
deriving DecidableEq, Repr

/-- The fields of openai.ChatCompletionRequest that TokensForRequest
reads: the model, the messages, MaxTokens and N (Go ints, zero when the
JSON field is unset). -/
structure ChatCompletionRequest where
  Model : String
  Messages : List ChatCompletionMessage
  MaxTokens : Int
  N : Int
deriving DecidableEq, Repr

/-- The unpinned-model aliasing of TokensForRequest (part_001 lines
244-250): plain gpt-3.5-turbo and gpt-4 are replaced by the current
defaults for the purpose of choosing overhead constants. -/
def aliasModel (m : String) : String :=
  if m = "gpt-3.5-turbo" then GPT_3_5_DEFAULT
  else if m = "gpt-4" then GPT_4_DEFAULT
  else m

/-- The pinned model names of the second switch case (part_001 lines
261-266). -/
def pinnedModels : List String :=
  ["gpt-3.5-turbo-0613", "gpt-3.5-turbo-16k-0613", "gpt-4-0314",
   "gpt-4-32k-0314", "gpt-4-0613", "gpt-4-32k-0613"]

/-- The accumulation of TokensForRequest (part_001 lines 280-303) once the
overhead constants are fixed: the message loop (per-message overhead, the
encoded lengths of content, role and name, and the per-name adjustment for
a nonempty name), plus 3 per request, plus n × maxTokens with n floored at
1 and maxTokens defaulted to 15 when below 1.  `E` gives the length of the
tiktoken encoding of a string. -/
def chatTokensTotal (E : String → Nat) (tokensPerMessage tokensPerName : Int)
    (r : ChatCompletionRequest) : Int :=
  let msgTokens := r.Messages.foldl
    (fun acc m => acc + tokensPerMessage + (E m.Content : Int) + (E m.Role : Int) +
      (E m.Name : Int) + (if m.Name ≠ "" then tokensPerName else 0)) 0
  let n : Int := if r.N < 1 then 1 else r.N
  let maxTokens : Int := if r.MaxTokens < 1 then 15 else r.MaxTokens
  msgTokens + 3 + n * maxTokens

/-- ChatCompletionRequest.TokensForRequest (part_001 lines 234-306) with
the external tiktoken library abstracted as `lookup`, the behaviour of
tiktoken.EncodingForModel: for a model name it either yields the encoding
(as its length function) or fails.  The source calls the lookup on the
original, un-aliased model name and returns its error before anything else
(lines 238-241); on success the aliasing and the switch pick the overhead
constants — 4 and -1 for gpt-3.5-turbo-0301, 3 and 1 for the pinned models
and for anything containing gpt-3.5-turbo or gpt-4 — and models the switch
does not know are an error. -/
def TokensForRequest (lookup : String → Except String (String → Nat))
    (r : ChatCompletionRequest) : Except String Int :=
  match lookup r.Model with
  | Except.error e => Except.error ("encoding for model: " ++ e)
  | Except.ok E =>
    let model := aliasModel r.Model
    if model = "gpt-3.5-turbo-0301" then
      Except.ok (chatTokensTotal E 4 (-1) r)
    else if model ∈ pinnedModels then
      Except.ok (chatTokensTotal E 3 1 r)
    else if strContains model "gpt-3.5-turbo" || strContains model "gpt-4" then
      Except.ok (chatTokensTotal E 3 1 r)
    else
      Except.error ("Unexpected model for chat completions: " ++ model)

/-- The cost formula stated by the spec, written as a sum over messages:
for each message per_message + the encoded lengths of content, role and
name plus per_name when the name is nonempty; plus per_request = 3; plus
n × max_tokens with the defaults of the spec. -/
def specChatTokens (E : String → Nat) (perMessage perName : Int)
    (r : ChatCompletionRequest) : Int :=
  (r.Messages.map (fun m => perMessage + (E m.Content : Int) + (E m.Role : Int) +
      (E m.Name : Int) + (if m.Name ≠ "" then perName else 0))).sum
    + 3 + (if r.N < 1 then 1 else r.N) * (if r.MaxTokens < 1 then 15 else r.MaxTokens)

theorem foldl_add_eq_sum {α : Type} (f : α → Int) :
    ∀ (l : List α) (acc : Int), l.foldl (fun a x => a + f x) acc = acc + (l.map f).sum := by
  intro l
  induction l with
  | nil => intro acc; simp
  | cons x xs ih => intro acc; simp [ih]; ring

theorem chatTokensTotal_eq_spec (E : String → Nat) (pm pn : Int) (r : ChatCompletionRequest) :
    chatTokensTotal E pm pn r = specChatTokens E pm pn r := by
  unfold chatTokensTotal specChatTokens
  have h : (fun (acc : Int) (m : ChatCompletionMessage) =>
      acc + pm + (E m.Content : Int) + (E m.Role : Int) + (E m.Name : Int) +
        (if m.Name ≠ "" then pn else 0)) =
      fun (acc : Int) m => acc + (pm + (E m.Content : Int) + (E m.Role : Int) +
        (E m.Name : Int) + (if m.Name ≠ "" then pn else 0)) := by
    funext acc m; ring
  rw [h, foldl_add_eq_sum]
  ring

/-- C7 (amended): for every request whose model the tiktoken encoder
lookup resolves and whose aliased model is in the gpt-3.5-turbo or gpt-4
family, the estimator succeeds and returns exactly the spec's formula,
with per-message overhead 4 and per-name -1 for gpt-3.5-turbo-0301 and 3
and 1 otherwise. -/
theorem TokensForRequest_formula (lookup : String → Except String (String → Nat))
    (E : String → Nat) (r : ChatCompletionRequest)
    (henc : lookup r.Model = Except.ok E)
    (h : strContains (aliasModel r.Model) "gpt-3.5-turbo" = true ∨
         strContains (aliasModel r.Model) "gpt-4" = true) :
    TokensForRequest lookup r = Except.ok (specChatTokens E
      (if aliasModel r.Model = "gpt-3.5-turbo-0301" then 4 else 3)
      (if aliasModel r.Model = "gpt-3.5-turbo-0301" then -1 else 1) r) := by
  simp only [TokensForRequest, henc]
  by_cases h1 : aliasModel r.Model = "gpt-3.5-turbo-0301"
  · rw [if_pos h1, if_pos h1, if_pos h1, chatTokensTotal_eq_spec]
  · rw [if_neg h1, if_neg h1, if_neg h1]
    by_cases h2 : aliasModel r.Model ∈ pinnedModels
    · rw [if_pos h2, chatTokensTotal_eq_spec]
    · rw [if_neg h2]
      have h3 : (strContains (aliasModel r.Model) "gpt-3.5-turbo" ||
          strContains (aliasModel r.Model) "gpt-4") = true := by
        rcases h with h | h <;> simp [h]
      rw [if_pos h3, chatTokensTotal_eq_spec]

/-- The model names of the gpt-4 and gpt-3.5-turbo rows of tiktoken-go's
MODEL_TO_ENCODING table: the exact names EncodingForModel resolves
directly. -/
def tiktokenModels : List String := ["gpt-4", "gpt-3.5-turbo"]

/-- The gpt-4 and gpt-3.5-turbo rows of tiktoken-go's
MODEL_PREFIX_TO_ENCODING table: EncodingForModel also resolves any model
name starting with one of these prefix strings. -/
def tiktokenPrefixTable : List String := ["gpt-4-", "gpt-3.5-turbo-"]

/-- The resolution logic of tiktoken-go's EncodingForModel on the gpt
family, with the cl100k_base encoding abstracted as `cl100k`: an exact
table name or a name with a known prefix yields the encoding, anything
else is an error.  A family-glob name like "gpt-4x" matches neither the
exact names nor the prefix "gpt-4-" and therefore fails. -/
def tiktokenLookup (cl100k : String → Nat) (m : String) : Except String (String → Nat) :=
  if m ∈ tiktokenModels then Except.ok cl100k
  else if tiktokenPrefixTable.any (fun p => p.data.isPrefixOf m.data) then Except.ok cl100k
  else Except.error ("no encoding for model " ++ m)

/-- The tiktoken cl100k_base encoded lengths on exactly the strings of the
S4 scenario: "system" and "test" are one token each, the empty string has
none (per the expected counts recorded in openai_test.go line 200). -/
def encS4 : String → Nat := fun s => if s = "" then 0 else 1

/-- The S4 request: model gpt-3.5-turbo, one system message "test",
max_tokens 1, n unset. -/
def reqS4 : ChatCompletionRequest := ⟨"gpt-3.5-turbo", [⟨"system", "test", ""⟩], 1, 0⟩

/-- A request identical to S4 except for the model "gpt-4x", which
matches the family glob gpt-4* but is not resolvable by the encoder
lookup. -/
def req4x : ChatCompletionRequest := ⟨"gpt-4x", [⟨"system", "test", ""⟩], 1, 0⟩

/-- Witness for C7 at the S4 input: the encoder lookup resolves
gpt-3.5-turbo exactly and the estimator returns 9. -/
theorem TokensForRequest_formula_witness :
    TokensForRequest (tiktokenLookup encS4) reqS4 = Except.ok 9 :=
  (TokensForRequest_formula (tiktokenLookup encS4) encS4 reqS4 rfl
    (Or.inl (by decide))).trans (by decide)

/-- Counterexample to C7 as stated: the model "gpt-4x" matches the claim's
gpt-4* family (the switch would accept it), yet the encoder lookup cannot
resolve it — no exact table name and no "gpt-4-" prefix — so the estimator
returns the lookup error instead of the claimed formula value. -/
theorem family_model_without_encoding_errors_cex :
    strContains (aliasModel "gpt-4x") "gpt-4" = true ∧
    TokensForRequest (tiktokenLookup encS4) req4x =
      Except.error "encoding for model: no encoding for model gpt-4x" ∧
    (TokensForRequest (tiktokenLookup encS4) req4x).isOk = false := by
  refine ⟨by decide, rfl, rfl⟩

/-! ## Path rewriting (forwardRequest) -/

/-- Go strings.Split with separator "/" over the characters of a path
(strings.Split never returns an empty list: the empty string splits to one
empty segment). -/
def splitOnSlash : List Char → List (List Char)
  | [] => [[]]
  | c :: rest =>
    let r := splitOnSlash rest
    if c = '/' then [] :: r
    else
      match r with
      | [] => [[c]]
      | h :: t => (c :: h) :: t

/-- Go strings.Split(path, "/") as a function on strings. -/
def goSplitSlash (s : String) : List String :=
  (splitOnSlash s.data).map String.mk

/-- Go strings.Join(parts, "/"). -/
def joinSlash (parts : List String) : String :=
  String.mk (List.intercalate ['/'] (parts.map String.data))

/-- The path computation of forwardRequest (openai_test.go's second
concatenated file, forwardRequest lines 296-301): split the inbound path on
"/", fail when there are fewer than two segments (forwardRequest then
returns an error before any upstream call), otherwise join the segments
from the third on. -/
def rewritePath (p : String) : Except String String :=
  let segments := goSplitSlash p
  if segments.length < 2 then Except.error ("Invalid URL: " ++ p)
  else Except.ok (joinSlash (segments.drop 2))

/-- The request path the upstream host receives for a rewritten path,
folding in Go's net/url serialization and HTTP request-line rules: with a
nonempty host a relative path is printed with a leading "/", and an empty
path is requested as "/". -/
def upstreamWirePath (newPath : String) : String :=
  if newPath = "" then "/"
  else if ['/'].isPrefixOf newPath.data then newPath
  else "/" ++ newPath

/-- What forwarding an inbound path produces: `Except.error 503` when
forwardRequest fails on the path before calling upstream (GetHandler turns
the error into a 503 ServiceUnavailable), or the wire path the upstream
receives. -/
def forwardResult (p : String) : Except Nat String :=
  match rewritePath p with
  | Except.error _ => Except.error 503
  | Except.ok np => Except.ok (upstreamWirePath np)

/-- C9 (amended): the upstream path is the inbound path minus its first
"/"-delimited segment — /r/a/b is forwarded to /a/b and /r/ to / — and in
general any inbound path of at least two segments forwards to the joined
remainder; an inbound path with fewer than two segments is never forwarded
and yields a 503 error response (not a 4xx). -/
theorem forward_path_rewrite :
    forwardResult "/r/a/b" = Except.ok "/a/b" ∧
    forwardResult "/r/" = Except.ok "/" ∧
    (∀ p : String, 2 ≤ (goSplitSlash p).length →
      forwardResult p = Except.ok (upstreamWirePath (joinSlash ((goSplitSlash p).drop 2)))) ∧
    (∀ p : String, (goSplitSlash p).length < 2 → forwardResult p = Except.error 503) := by
  refine ⟨by decide, by decide, ?_, ?_⟩
  · intro p hp
    unfold forwardResult rewritePath
    rw [if_neg (not_lt.mpr hp)]
  · intro p hp
    unfold forwardResult rewritePath
    rw [if_pos hp]

/-- Counterexample to C9 as stated: the inbound path "" has fewer than two
segments; it is not forwarded, but the handler reports 503, which is not a
4xx status. -/
theorem short_path_503_not_4xx_cex :
    forwardResult "" = Except.error 503 ∧
    (goSplitSlash "").length < 2 ∧ ¬((503 : Nat) < 500) := by
  refine ⟨by decide, by decide, by norm_num⟩

end LLProxy
